import Mathlib

/-!
Verification of the deployment runner (`deployer/src/deployment/run.rs`) and
the gateway startup loop (`gateway/src/main.rs`) of the shuttle repository.

The Rust code is shallowly embedded: every side-effecting collaborator
(port picker, service-name parser, abstract factory, storage manager, loader,
kill bus, broadcast receiver, file system, ACME client) is represented by the
result value the code observes from it, and each function of the source is
translated into a pure Lean function over those observations.  Asynchronous
waiting (the `tokio::select!` in `run`) is modelled by a list of the events
the select observes, in arrival order.
-/

namespace Shuttle

/-- View of an `Except` value as a `Sum`, used to decide equality. -/
def exceptToSum {ε α : Type} : Except ε α → ε ⊕ α
  | .error e => .inl e
  | .ok a => .inr a

instance {ε α : Type} [DecidableEq ε] [DecidableEq α] : DecidableEq (Except ε α) :=
  fun x y =>
    decidable_of_iff (exceptToSum x = exceptToSum y)
      (by cases x <;> cases y <;> simp [exceptToSum])

/-- Deployment / service identifiers (`uuid::Uuid`), opaque 128-bit values;
modelled as naturals since only equality is used. -/
abbrev Uuid := Nat

/-- `shuttle_service::Error`: the error a loaded service itself can produce.
The deployer only inspects it opaquely; the `BindPanic` / `BuildPanic`
classifications carry the panic message (see the tests of the crate). -/
inductive ServiceError
  | bindPanic (msg : String)
  | buildPanic (msg : String)
  | custom (msg : String)
deriving DecidableEq

/-- `shuttle_service::loader::LoaderError`: failure to open the artifact or to
find its entrypoint (`missing_so` test shows the `Load` variant). -/
inductive LoaderError
  | load (msg : String)
  | getEntrypoint (msg : String)
deriving DecidableEq

/-- `tokio::task::JoinError` as the deployer observes it: the only inspection
performed by `run.rs` is `is_cancelled()`. -/
structure JoinError where
  isCancelled : Bool
deriving DecidableEq

/-- `deployer::error::Error`: the per-deployment pipeline error.  The variants
are those constructed or matched in `run.rs` and its tests: `PrepareLoad`
(no free port), `Load` (loader failure), `Run` (service error surfaced while
loading/entry), `OldCleanup` (failure signalling old generations). -/
inductive DeployerError
  | prepareLoad (msg : String)
  | load (e : LoaderError)
  | run (e : ServiceError)
  | oldCleanup (msg : String)
  | internal (msg : String)
deriving DecidableEq

/-- The two-level outcome of the supervised task: outer `JoinError`, inner
service error (`Result<Result<(), shuttle_service::Error>, JoinError>`). -/
abbrev RunResult := Except JoinError (Except ServiceError Unit)

/-- The error payload handed to a cleanup function; the source passes values
of several error types (`impl std::error::Error`) to the cleanups. -/
inductive CleanupErr
  | service (e : ServiceError)
  | join (e : JoinError)
  | deployer (e : DeployerError)
  | close (msg : String)
  | other (msg : String)
deriving DecidableEq

/-- One observable cleanup dispatch: exactly one of the four terminal cleanup
functions of `run.rs` (`completed_cleanup`, `stopped_cleanup`,
`crashed_cleanup`, `start_crashed_cleanup`). -/
inductive CleanupEvent
  | completed
  | stopped
  | crashed (e : CleanupErr)
  | startCrashed (e : CleanupErr)
deriving DecidableEq

/-- The `cleanup` closure built in `task` (run.rs lines 93-103): dispatches
one of the four cleanups from the two-level result. -/
def cleanup (result : RunResult) : CleanupEvent :=
  match result with
  | .ok (.ok _) => .completed
  | .ok (.error err) => .crashed (.service err)
  | .error err => if err.isCancelled then .stopped else .startCrashed (.join err)

/-- One event observed by the `tokio::select!` of `run`: either the kill-bus
receive completes (with a deployment id, or a receive error such as a closed
or lagged channel), or the service handle resolves. -/
inductive SelectEvent
  | kill (r : Except String Uuid)
  | handleDone (r : RunResult)
deriving DecidableEq

/-- After `Ok(kill_id) = kill_recv.recv()` fails to match (receive error), the
kill branch is disabled for the remainder of that `select!` call, so the only
event that can end the loop is the handle resolving; subsequent kill-bus
traffic is never polled. -/
def awaitHandle : List SelectEvent → Option RunResult
  | [] => none
  | .handleDone r :: _ => some r
  | .kill _ :: rest => awaitHandle rest

/-- The `loop { tokio::select! { ... } }` of `run` (run.rs lines 246-261).
`abortedResult` is the value `handle.await` yields after `handle.abort()`.
Returns `some r` when the loop breaks with `result = r`; `none` when the
event list is exhausted with the loop still waiting. -/
def runLoop (id : Uuid) (abortedResult : RunResult) :
    List SelectEvent → Option RunResult
  | [] => none
  | .kill (.ok killId) :: rest =>
      if killId = id then some abortedResult else runLoop id abortedResult rest
  | .kill (.error _) :: rest => awaitHandle rest
  | .handleDone r :: _ => some r

/-- What happens after the loop breaks: either `library.close()` failed and
`crashed_cleanup` is emitted with the close error (the callback is not
invoked), or the `cleanup` callback is invoked with the result of the loop. -/
inductive RunTaskOutcome
  | closeFailed (e : String)
  | callbackInvoked (r : RunResult)
deriving DecidableEq

/-- The tail of `run` (run.rs lines 263-267) composed with the loop:
once the loop has broken with a result, close the library and either emit
the crashed cleanup (close error) or invoke the callback. -/
def runTask (id : Uuid) (abortedResult : RunResult) (events : List SelectEvent)
    (closeResult : Except String Unit) : Option RunTaskOutcome :=
  (runLoop id abortedResult events).map fun result =>
    match closeResult with
    | .error e => .closeFailed e
    | .ok _ => .callbackInvoked result

/-- The cleanup event produced by a finished run task. -/
def runOutcomeEvent : RunTaskOutcome → CleanupEvent
  | .closeFailed e => .crashed (.close e)
  | .callbackInvoked r => cleanup r

/-- Cleanup dispatched by the whole supervised task, when it has finished. -/
def runTaskCleanup (id : Uuid) (abortedResult : RunResult)
    (events : List SelectEvent) (closeResult : Except String Unit) :
    Option CleanupEvent :=
  (runTask id abortedResult events closeResult).map runOutcomeEvent

/-- `load_deployment` (run.rs lines 270-280): `Loader::from_so_file` failures
convert to `Error::Load`, failures of `loader.load` convert to `Error::Run`
(as exercised by the `missing_so` and `panic_in_main` tests). -/
def load_deployment (fromSoFile : Except LoaderError Unit)
    (loadCall : Except ServiceError Unit) : Except DeployerError Unit :=
  match fromSoFile with
  | .error e => .error (.load e)
  | .ok _ =>
    match loadCall with
    | .error e => .error (.run e)
    | .ok _ => .ok ()

/-- The observations `Built::handle` makes of its collaborators: the storage
manager path lookup, the two loader stages, and the awaited
`kill_old_deployments` future. -/
structure HandleEnv where
  pathResult : Except DeployerError Unit
  fromSoFile : Except LoaderError Unit
  loadCall : Except ServiceError Unit
  reapResult : Except DeployerError Unit
deriving DecidableEq

/-- Milestones of `Built::handle` (run.rs lines 208-230), in program order:
the artifact path resolved, the service loaded, the old-generation reap
future awaited to completion, the run task spawned. -/
inductive HandleStep
  | pathResolved
  | loaded
  | reaped
  | spawnedRun
deriving DecidableEq

/-- `Built::handle`: the sequence of milestones reached and the returned
result.  Every `?` returns the error synchronously without reaching later
milestones. -/
def handleTrace (env : HandleEnv) : List HandleStep × Except DeployerError Unit :=
  match env.pathResult with
  | .error e => ([], .error e)
  | .ok _ =>
    match load_deployment env.fromSoFile env.loadCall with
    | .error e => ([.pathResolved], .error e)
    | .ok _ =>
      match env.reapResult with
      | .error e => ([.pathResolved, .loaded], .error e)
      | .ok _ => ([.pathResolved, .loaded, .reaped, .spawnedRun], .ok ())

/-- The result `Built::handle` returns to its caller. -/
def handleResult (env : HandleEnv) : Except DeployerError Unit :=
  (handleTrace env).2

/-- `Built::handle` composed with the spawned run task: a synchronous error
means the run task never exists (so the cleanup callback can never be
invoked); on success the eventual outcome of the run task is as in `runTask`. -/
def handleRun (id : Uuid) (env : HandleEnv) (abortedResult : RunResult)
    (events : List SelectEvent) (closeResult : Except String Unit) :
    Except DeployerError (Option RunTaskOutcome) :=
  match handleResult env with
  | .error e => .error e
  | .ok _ => .ok (runTask id abortedResult events closeResult)

/-- The publish loop of `kill_old_deployments`: send each old id on the kill bus,
short-circuiting on the first failed send.  Returns the list of ids actually
published and the overall result. -/
def publishKills (send : Uuid → Except String Unit) :
    List Uuid → List Uuid × Except DeployerError Unit
  | [] => ([], .ok ())
  | oldId :: rest =>
    match send oldId with
    | .error e => ([], .error (.oldCleanup e))
    | .ok _ =>
      let step := publishKills send rest
      (oldId :: step.1, step.2)

/-- `kill_old_deployments` (run.rs lines 137-158): snapshot the active
deployments of the service, filter out the current deployment id, publish
each remaining id; any failure is wrapped as `Error::OldCleanup`. -/
def kill_old_deployments (serviceId deploymentId : Uuid)
    (getActive : Uuid → Except String (List Uuid))
    (send : Uuid → Except String Unit) : List Uuid × Except DeployerError Unit :=
  match getActive serviceId with
  | .error e => ([], .error (.oldCleanup e))
  | .ok ids => publishKills send (ids.filter (fun oldId => oldId ≠ deploymentId))

/-- The observations made while handling one `Built` in the runner loop
(run.rs lines 40-133): the port picker, the service-name parse, the abstract
factory call, then everything `Built::handle` and the run task observe. -/
structure BuiltEnv where
  portResult : Option Nat
  nameResult : Except String Unit
  factoryResult : Except String Unit
  handleEnv : HandleEnv
  abortedResult : RunResult
  runEvents : List SelectEvent
  closeResult : Except String Unit
deriving DecidableEq

/-- Handling of a single `Built` by the runner: the list of cleanup events
dispatched for it over its whole lifetime.  A failure of the port picker,
name parse or factory emits `start_crashed_cleanup` and the loop continues;
an error returned by `Built::handle` is caught in the spawned wrapper and
also emits `start_crashed_cleanup`; otherwise the supervised run task
eventually dispatches its own cleanup. -/
def processBuilt (id : Uuid) (env : BuiltEnv) : List CleanupEvent :=
  match env.portResult with
  | none =>
      [.startCrashed (.deployer (.prepareLoad
        "could not find a free port to deploy service on"))]
  | some _ =>
    match env.nameResult with
    | .error e => [.startCrashed (.other e)]
    | .ok _ =>
      match env.factoryResult with
      | .error e => [.startCrashed (.other e)]
      | .ok _ =>
        match handleRun id env.handleEnv env.abortedResult env.runEvents
            env.closeResult with
        | .error e => [.startCrashed (.deployer e)]
        | .ok out => (out.map runOutcomeEvent).toList

/-- The outer loop of the runner (`task`): consumes every `Built` from the
channel, never failing; the cleanups dispatched are the concatenation of the
per-item cleanups. -/
def task (builts : List (Uuid × BuiltEnv)) : List CleanupEvent :=
  (builts.map fun p => processBuilt p.1 p.2).flatten

/-- A pipeline failure for one `Built`: no free port, a service-name parse
failure, a factory failure, or an error returned by `Built::handle`. -/
def pipelineFailed (env : BuiltEnv) : Prop :=
  env.portResult = none ∨ (∃ e, env.nameResult = .error e) ∨
    (∃ e, env.factoryResult = .error e) ∨ ∃ e, handleResult env.handleEnv = .error e

/-- One ambulance tick of the gateway (`gateway/src/main.rs` lines 99-137):
if the free capacity of the worker queue is below
`WORKER_QUEUE_SIZE - SVC_DEGRADED_THRESHOLD` the tick is skipped; otherwise
the project list is snapshot (`iter_projects` may fail, enqueuing nothing)
and one health-check task is enqueued per project whose send succeeds.
Returns the number of health-check tasks enqueued on this tick. -/
def ambulanceTick (workerQueueSize svcDegradedThreshold capacity : Nat)
    (projects : Option (List String)) (sendOk : String → Bool) : Nat :=
  if capacity < workerQueueSize - svcDegradedThreshold then 0
  else
    match projects with
    | none => 0
    | some ps => (ps.filter sendOk).length

/-- ACME challenge types used by the gateway. -/
inductive Challenge
  | dns01
  | http01
deriving DecidableEq

/-- The observations `init_certs` makes of the file system and ACME client:
the parse of `ssl.pem` (`ChainAndPrivateKey::load_pem`), existence of
`acme.json`, the deserialization of the credentials, the certificate
creation call, the re-parse of the issued material, and the write back to
`ssl.pem` (`save_pem`).  Every unwrap or panic of the source is an
`Except.error` here. -/
structure CertEnv where
  loadPem : Except String String
  acmeJsonExists : Bool
  credsParse : Except String String
  createCert : String → Challenge → String → Except String (String × String)
  parsePem : String → Except String String
  savePem : String → String → Except String Unit

/-- Observable steps of `init_certs`, in program order. -/
inductive CertStep
  | issued (identifier : String) (challenge : Challenge)
  | savedPem (path : String) (content : String)
deriving DecidableEq

/-- `init_certs` (gateway/src/main.rs lines 209-251): load the certificate
from `ssl.pem` when it parses as valid; otherwise require `acme.json` to
exist (panic when absent), deserialize the credentials, issue for the
wildcard identifier `*.<public>` with the DNS-01 challenge, re-parse the
chain-plus-key buffer, save it back to `ssl.pem`, and only then return it.
Returns the certificate served as default together with the trace of steps
taken; `Except.error` is a panic of the source. -/
def init_certs (fs pub : String) (env : CertEnv) :
    Except String (String × List CertStep) :=
  match env.loadPem with
  | .ok valid => .ok (valid, [])
  | .error _ =>
    if env.acmeJsonExists = false then
      .error ("no ACME credentials found at " ++ fs ++
        "/acme.json, cannot continue with certificate creation")
    else
      match env.credsParse with
      | .error e => .error e
      | .ok creds =>
        let identifier := "*." ++ pub
        match env.createCert identifier Challenge.dns01 creds with
        | .error e => .error e
        | .ok (chain, key) =>
          match env.parsePem (chain ++ key) with
          | .error e => .error e
          | .ok certs =>
            match env.savePem (fs ++ "/ssl.pem") certs with
            | .error e => .error e
            | .ok _ =>
              .ok (certs,
                [.issued identifier Challenge.dns01,
                 .savedPem (fs ++ "/ssl.pem") certs])

/-- Any result produced by waiting only on the handle (after the kill branch
was disabled) comes from the handle resolving in the event stream. -/
lemma awaitHandle_mem :
    ∀ (l : List SelectEvent) (res : RunResult),
      awaitHandle l = some res → SelectEvent.handleDone res ∈ l := by
  intro l
  induction l with
  | nil => intro res h; simp [awaitHandle] at h
  | cons a t ih =>
    intro res h
    cases a with
    | handleDone r =>
      simp [awaitHandle] at h
      simp [h]
    | kill k =>
      simp only [awaitHandle] at h
      exact List.mem_cons_of_mem _ (ih res h)

/-- C2: the `cleanup` closure maps the two-level outcome exactly as the
source does: `Ok(Ok(()))` to the completed cleanup, `Ok(Err(e))` to the
crashed cleanup carrying `e`, a cancelled `JoinError` to the stopped
cleanup, and any other `JoinError` to the start-crashed cleanup. -/
theorem cleanup_dispatch_mapping (e : ServiceError) :
    cleanup (.ok (.ok ())) = .completed ∧
    cleanup (.ok (.error e)) = .crashed (.service e) ∧
    cleanup (.error ⟨true⟩) = .stopped ∧
    cleanup (.error ⟨false⟩) = .startCrashed (.join ⟨false⟩) :=
  ⟨rfl, rfl, rfl, rfl⟩

/-- C5: in the supervised run loop, a kill-bus message carrying this
deployment id breaks the loop with the post-abort await result and the
task proceeds to library close; a non-matching id is ignored and the loop
keeps waiting, dispatching nothing for that event; once the handle has
resolved the loop exits, discarding all later events. -/
theorem run_kill_semantics (id killId : Uuid) (ar r : RunResult)
    (rest : List SelectEvent) (closeResult : Except String Unit) :
    runLoop id ar (.kill (.ok id) :: rest) = some ar ∧
    (runTask id ar (.kill (.ok id) :: rest) closeResult).isSome = true ∧
    (killId ≠ id → runLoop id ar (.kill (.ok killId) :: rest) =
      runLoop id ar rest) ∧
    (killId ≠ id → runTaskCleanup id ar (.kill (.ok killId) :: rest)
      closeResult = runTaskCleanup id ar rest closeResult) ∧
    runLoop id ar (.handleDone r :: rest) = some r := by
  refine ⟨by simp [runLoop], by simp [runLoop, runTask], ?_, ?_, rfl⟩
  · intro h
    simp [runLoop, h]
  · intro h
    simp [runTaskCleanup, runTask, runLoop, h]

/-- Witness for C5: a kill message for deployment 1 does not stop
deployment 0, whose loop then sees its handle resolve. -/
theorem run_kill_semantics_witness :
    runLoop 0 (.error ⟨true⟩)
      [.kill (.ok 1), .handleDone (.ok (.ok ()))] = some (.ok (.ok ())) :=
  ((run_kill_semantics 0 1 (.error ⟨true⟩) (.ok (.ok ()))
    [.handleDone (.ok (.ok ()))] (.ok ())).2.2.1 (by decide)).trans (by decide)

/-- C7: once the loop has broken with a result, a failing library close
emits the crashed cleanup with the close error and the callback is not
invoked; a successful close invokes the callback with the result of the loop;
the task produces exactly one of the two outcomes. -/
theorem run_close_dispatch (id : Uuid) (ar r : RunResult)
    (events : List SelectEvent) (e : String)
    (h : runLoop id ar events = some r) :
    runTask id ar events (.error e) = some (.closeFailed e) ∧
    runTaskCleanup id ar events (.error e) = some (.crashed (.close e)) ∧
    runTask id ar events (.ok ()) = some (.callbackInvoked r) ∧
    runTaskCleanup id ar events (.ok ()) = some (cleanup r) := by
  simp [runTask, runTaskCleanup, runOutcomeEvent, h]

/-- Witness for C7: a close failure after a naturally finished service. -/
theorem run_close_dispatch_witness :
    runTask 0 (.error ⟨true⟩) [.handleDone (.ok (.ok ()))]
      (.error "close failed") = some (.closeFailed "close failed") :=
  (run_close_dispatch 0 (.error ⟨true⟩) (.ok (.ok ()))
    [.handleDone (.ok (.ok ()))] "close failed" (by decide)).1

/-- C8: on an ambulance tick whose free queue capacity is below
`WORKER_QUEUE_SIZE - SVC_DEGRADED_THRESHOLD` nothing is enqueued, and any
tick that enqueues a health check had capacity at or above that bound. -/
theorem ambulance_backpressure (q t cap : Nat) (projects : Option (List String))
    (sendOk : String → Bool) :
    (cap < q - t → ambulanceTick q t cap projects sendOk = 0) ∧
    (0 < ambulanceTick q t cap projects sendOk → q - t ≤ cap) := by
  constructor
  · intro h
    simp [ambulanceTick, h]
  · intro h
    by_contra hc
    push_neg at hc
    simp [ambulanceTick, hc] at h

/-- Witness for C8: with queue size 32, threshold 16 and capacity 10, the
tick is skipped even though two projects are listed. -/
theorem ambulance_backpressure_witness :
    ambulanceTick 32 16 10 (some ["p1", "p2"]) (fun _ => true) = 0 :=
  (ambulance_backpressure 32 16 10 (some ["p1", "p2"]) (fun _ => true)).1
    (by decide)

/-- C10: a kill-bus receive error does not abort the service and dispatches
no cleanup; the kill branch is disabled, so the loop waits only on the
handle: later kill traffic is never observed and the result of the loop can only
be the resolution of the handle itself. -/
theorem run_recv_error_ignored (id : Uuid) (ar r : RunResult) (e : String)
    (k : Except String Uuid) (rest : List SelectEvent) :
    runLoop id ar (.kill (.error e) :: rest) = awaitHandle rest ∧
    awaitHandle ([] : List SelectEvent) = none ∧
    awaitHandle (.kill k :: rest) = awaitHandle rest ∧
    awaitHandle (.handleDone r :: rest) = some r ∧
    (∀ res, awaitHandle rest = some res → SelectEvent.handleDone res ∈ rest) :=
  ⟨rfl, rfl, rfl, rfl, fun res h => awaitHandle_mem rest res h⟩

/-- Witness for C10: after a receive error, a kill message for this very
deployment is skipped and the result is the natural resolution of the handle. -/
theorem run_recv_error_ignored_witness :
    runLoop 0 (.error ⟨true⟩)
      [.kill (.error "channel closed"), .kill (.ok 0),
        .handleDone (.ok (.ok ()))] = some (.ok (.ok ())) ∧
    SelectEvent.handleDone (.ok (.ok ())) ∈
      [SelectEvent.kill (.ok 0), .handleDone (.ok (.ok ()))] := by
  have h := run_recv_error_ignored 0 (.error ⟨true⟩) (.ok (.ok ()))
    "channel closed" (.ok 0) [SelectEvent.kill (.ok 0), .handleDone (.ok (.ok ()))]
  exact ⟨h.1.trans (by decide), h.2.2.2.2 _ (by decide)⟩

/-- When every send succeeds, the publish loop sends exactly the given list
and returns success. -/
lemma publishKills_all_ok (send : Uuid → Except String Unit) :
    ∀ l : List Uuid, (∀ x ∈ l, send x = .ok ()) →
      publishKills send l = (l, .ok ()) := by
  intro l
  induction l with
  | nil => intro _; rfl
  | cons a t ih =>
    intro h
    have ha := h a (by simp)
    have ht := ih fun x hx => h x (by simp [hx])
    simp [publishKills, ha, ht]

/-- The publish loop either succeeds or fails wrapped as `OldCleanup`. -/
lemma publishKills_shape (send : Uuid → Except String Unit) :
    ∀ l : List Uuid, (publishKills send l).2 = .ok () ∨
      ∃ msg, (publishKills send l).2 = .error (.oldCleanup msg) := by
  intro l
  induction l with
  | nil => exact Or.inl rfl
  | cons a t ih =>
    cases ha : send a with
    | error e => exact Or.inr ⟨e, by simp [publishKills, ha]⟩
    | ok u =>
      cases u
      simpa [publishKills, ha] using ih

/-- When the publish loop succeeds, every send in the list succeeded. -/
lemma publishKills_ok_sends (send : Uuid → Except String Unit) :
    ∀ l : List Uuid, (publishKills send l).2 = .ok () →
      ∀ x ∈ l, send x = .ok () := by
  intro l
  induction l with
  | nil => intro _ x hx; simp at hx
  | cons a t ih =>
    intro h x hx
    cases ha : send a with
    | error e => simp [publishKills, ha] at h
    | ok u =>
      cases u
      simp [publishKills, ha] at h
      rcases List.mem_cons.mp hx with rfl | hxt
      · exact ha
      · exact ih h x hxt

/-- Every id published by the loop came from the input list. -/
lemma publishKills_subset (send : Uuid → Except String Unit) :
    ∀ l : List Uuid, (publishKills send l).1 ⊆ l := by
  intro l
  induction l with
  | nil => intro x hx; simp [publishKills] at hx
  | cons a t ih =>
    intro x hx
    cases ha : send a with
    | error e => simp [publishKills, ha] at hx
    | ok u =>
      cases u
      simp only [publishKills, ha] at hx
      rcases List.mem_cons.mp hx with rfl | hxt
      · exact List.mem_cons_self x t
      · exact List.mem_cons_of_mem _ (ih hxt)

/-- C3: `kill_old_deployments` snapshots the active deployments of the
service, publishes every id of the snapshot other than the current
deployment id when all publishes succeed, wraps a snapshot failure or a
publish failure as `OldCleanup`, and never publishes the id of the new deployment
itself. -/
theorem kill_old_deployments_spec (sid did : Uuid)
    (getActive : Uuid → Except String (List Uuid))
    (send : Uuid → Except String Unit) :
    (∀ ids, getActive sid = .ok ids →
      ((∀ x ∈ ids.filter (fun o => o ≠ did), send x = .ok ()) →
        kill_old_deployments sid did getActive send =
          (ids.filter (fun o => o ≠ did), .ok ())) ∧
      ((∃ x ∈ ids.filter (fun o => o ≠ did), ∃ e, send x = .error e) →
        ∃ msg, (kill_old_deployments sid did getActive send).2 =
          .error (.oldCleanup msg))) ∧
    (∀ e, getActive sid = .error e →
      kill_old_deployments sid did getActive send =
        ([], .error (.oldCleanup e))) ∧
    did ∉ (kill_old_deployments sid did getActive send).1 := by
  refine ⟨fun ids hids => ⟨fun hok => ?_, fun hfail => ?_⟩, fun e he => ?_, ?_⟩
  · simp only [kill_old_deployments, hids]
    exact publishKills_all_ok send _ hok
  · simp only [kill_old_deployments, hids]
    rcases publishKills_shape send (ids.filter (fun o => o ≠ did)) with hsh | hsh
    · rcases hfail with ⟨x, hx, ex, hex⟩
      have := publishKills_ok_sends send _ hsh x hx
      rw [this] at hex
      exact absurd hex (by simp)
    · exact hsh
  · simp [kill_old_deployments, he]
  · cases hg : getActive sid with
    | error e => simp [kill_old_deployments, hg]
    | ok ids =>
      intro hmem
      simp only [kill_old_deployments, hg] at hmem
      have := publishKills_subset send _ hmem
      simp at this

/-- Witness for C3: snapshot `[1, 2]` for new deployment 1 publishes exactly
the old deployment 2 and succeeds. -/
theorem kill_old_deployments_spec_witness :
    kill_old_deployments 0 1 (fun _ => .ok [1, 2]) (fun _ => .ok ()) =
      ([1, 2].filter (fun o => o ≠ 1), .ok ()) :=
  ((kill_old_deployments_spec 0 1 (fun _ => .ok [1, 2]) (fun _ => .ok ())).1
    [1, 2] rfl).1 (by decide)

/-- Exhaustive shapes of a `Built::handle` execution: it stops at the first
failing stage, or reaches all four milestones and returns success. -/
lemma handleTrace_cases (env : HandleEnv) :
    (∃ e, handleTrace env = ([], .error e)) ∨
    (∃ e, handleTrace env = ([.pathResolved], .error e)) ∨
    (∃ e, handleTrace env = ([.pathResolved, .loaded], .error e) ∧
      env.reapResult = .error e) ∨
    (handleTrace env =
        ([.pathResolved, .loaded, .reaped, .spawnedRun], .ok ()) ∧
      env.reapResult = .ok () ∧
      load_deployment env.fromSoFile env.loadCall = .ok ()) := by
  cases hp : env.pathResult with
  | error e => exact Or.inl ⟨e, by simp [handleTrace, hp]⟩
  | ok u =>
    cases u
    cases hl : load_deployment env.fromSoFile env.loadCall with
    | error e => exact Or.inr (Or.inl ⟨e, by simp [handleTrace, hp, hl]⟩)
    | ok v =>
      cases v
      cases hr : env.reapResult with
      | error e =>
        exact Or.inr (Or.inr (Or.inl ⟨e, by simp [handleTrace, hp, hl, hr], rfl⟩))
      | ok w =>
        cases w
        exact Or.inr (Or.inr (Or.inr ⟨by simp [handleTrace, hp, hl, hr], rfl, rfl⟩))

/-- C4: whenever `Built::handle` spawns the supervised run task, its trace
is exactly path resolution, load, reap, spawn, so the old-generation reap
future was awaited to successful completion after the artifact was loaded
and before the run task was spawned. -/
theorem handle_reap_before_spawn (env : HandleEnv)
    (h : HandleStep.spawnedRun ∈ (handleTrace env).1) :
    (handleTrace env).1 = [.pathResolved, .loaded, .reaped, .spawnedRun] ∧
    env.reapResult = .ok () ∧
    load_deployment env.fromSoFile env.loadCall = .ok () ∧
    handleResult env = .ok () ∧
    (handleTrace env).1.indexOf HandleStep.loaded <
      (handleTrace env).1.indexOf HandleStep.reaped ∧
    (handleTrace env).1.indexOf HandleStep.reaped <
      (handleTrace env).1.indexOf HandleStep.spawnedRun := by
  rcases handleTrace_cases env with ⟨e, ht⟩ | ⟨e, ht⟩ | ⟨e, ht, _⟩ | ⟨ht, hr, hl⟩
  · rw [ht] at h; simp at h
  · rw [ht] at h; simp at h
  · rw [ht] at h; simp at h
  · refine ⟨by rw [ht], hr, hl, ?_, ?_, ?_⟩
    · simp [handleResult, ht]
    · rw [ht]; decide
    · rw [ht]; decide

/-- Witness for C4: an execution in which every stage succeeds. -/
theorem handle_reap_before_spawn_witness :
    (handleTrace ⟨.ok (), .ok (), .ok (), .ok ()⟩).1 =
      [.pathResolved, .loaded, .reaped, .spawnedRun] :=
  (handle_reap_before_spawn ⟨.ok (), .ok (), .ok (), .ok ()⟩ (by decide)).1

/-- C6: a failure before the run task is spawned is returned synchronously
from `Built::handle`: a missing artifact surfaces as a `Load` error and a
construction panic as `Run (BuildPanic msg)` with exactly the panic message;
on any synchronous error the run task does not exist, so the cleanup
callback is never invoked. -/
theorem handle_sync_error_no_cleanup (env : HandleEnv) (le : LoaderError)
    (msg : String) (id : Uuid) (ar : RunResult) (events : List SelectEvent)
    (closeResult : Except String Unit) :
    (env.pathResult = .ok () → env.fromSoFile = .error le →
      handleResult env = .error (.load le)) ∧
    (env.pathResult = .ok () → env.fromSoFile = .ok () →
      env.loadCall = .error (.buildPanic msg) →
      handleResult env = .error (.run (.buildPanic msg))) ∧
    (∀ e, handleResult env = .error e →
      handleRun id env ar events closeResult = .error e ∧
      HandleStep.spawnedRun ∉ (handleTrace env).1) := by
  refine ⟨fun hp hf => ?_, fun hp hf hl => ?_, fun e he => ⟨?_, ?_⟩⟩
  · simp [handleResult, handleTrace, hp, load_deployment, hf]
  · simp [handleResult, handleTrace, hp, load_deployment, hf, hl]
  · simp [handleRun, he]
  · intro hmem
    rcases handleTrace_cases env with ⟨f, ht⟩ | ⟨f, ht⟩ | ⟨f, ht, _⟩ | ⟨ht, _, _⟩
    · rw [ht] at hmem; simp at hmem
    · rw [ht] at hmem; simp at hmem
    · rw [ht] at hmem; simp at hmem
    · rw [show handleResult env = (handleTrace env).2 from rfl, ht] at he
      simp at he

/-- Witness for C6: a missing artifact file yields a `Load` error, and a
construction panic yields `Run (BuildPanic "main panic")`. -/
theorem handle_sync_error_no_cleanup_witness :
    handleResult ⟨.ok (), .error (.load "No such file or directory"),
        .ok (), .ok ()⟩ =
      .error (.load (.load "No such file or directory")) ∧
    handleResult ⟨.ok (), .ok (), .error (.buildPanic "main panic"),
        .ok ()⟩ =
      .error (.run (.buildPanic "main panic")) :=
  ⟨(handle_sync_error_no_cleanup
      ⟨.ok (), .error (.load "No such file or directory"), .ok (), .ok ()⟩
      (.load "No such file or directory") "main panic" 0 (.error ⟨true⟩) []
      (.ok ())).1 rfl rfl,
    (handle_sync_error_no_cleanup
      ⟨.ok (), .ok (), .error (.buildPanic "main panic"), .ok ()⟩
      (.load "") "main panic" 0 (.error ⟨true⟩) []
      (.ok ())).2.1 rfl rfl rfl⟩

/-- C9: `init_certs` returns the certificate from `ssl.pem` whenever it
parses as valid; otherwise the absence of `acme.json` is fatal, and when the
credentials are present a certificate is issued for the wildcard identifier
`*.<proxy_fqdn>` using exclusively the DNS-01 challenge and is written back
to `ssl.pem` before being returned to serve as the default. -/
theorem init_certs_spec (fs pub : String) (env : CertEnv) :
    (∀ c, env.loadPem = .ok c → init_certs fs pub env = .ok (c, [])) ∧
    (∀ l, env.loadPem = .error l → env.acmeJsonExists = false →
      init_certs fs pub env = .error ("no ACME credentials found at " ++ fs ++
        "/acme.json, cannot continue with certificate creation")) ∧
    (∀ l creds chain key certs, env.loadPem = .error l →
      env.acmeJsonExists = true → env.credsParse = .ok creds →
      env.createCert ("*." ++ pub) Challenge.dns01 creds = .ok (chain, key) →
      env.parsePem (chain ++ key) = .ok certs →
      env.savePem (fs ++ "/ssl.pem") certs = .ok () →
      init_certs fs pub env = .ok (certs,
        [.issued ("*." ++ pub) Challenge.dns01,
         .savedPem (fs ++ "/ssl.pem") certs])) ∧
    (∀ c tr, init_certs fs pub env = .ok (c, tr) →
      ∀ idf ch, CertStep.issued idf ch ∈ tr →
        ch = Challenge.dns01 ∧ idf = "*." ++ pub ∧
        CertStep.savedPem (fs ++ "/ssl.pem") c ∈ tr ∧
        env.savePem (fs ++ "/ssl.pem") c = .ok ()) := by
  refine ⟨fun c hc => ?_, fun l hl ha => ?_, ?_, ?_⟩
  · simp [init_certs, hc]
  · simp [init_certs, hl, ha]
  · intro l creds chain key certs hl ha hcr hcc hpp hsv
    simp [init_certs, hl, ha, hcr, hcc, hpp, hsv]
  · intro c tr hres idf ch hmem
    cases hl : env.loadPem with
    | ok valid =>
      simp [init_certs, hl] at hres
      rw [hres.2] at hmem
      simp at hmem
    | error l =>
      cases ha : env.acmeJsonExists with
      | false => simp [init_certs, hl, ha] at hres
      | true =>
        cases hcr : env.credsParse with
        | error e => simp [init_certs, hl, ha, hcr] at hres
        | ok creds =>
          cases hcc : env.createCert ("*." ++ pub) Challenge.dns01 creds with
          | error e => simp [init_certs, hl, ha, hcr, hcc] at hres
          | ok pair =>
            cases hpp : env.parsePem (pair.1 ++ pair.2) with
            | error e =>
              simp [init_certs, hl, ha, hcr, hcc, hpp] at hres
            | ok certs =>
              cases hsv : env.savePem (fs ++ "/ssl.pem") certs with
              | error e =>
                simp [init_certs, hl, ha, hcr, hcc, hpp, hsv] at hres
              | ok u =>
                cases u
                simp [init_certs, hl, ha, hcr, hcc, hpp, hsv] at hres
                rcases hres with ⟨rfl, rfl⟩
                simp at hmem
                rcases hmem with ⟨rfl, rfl⟩
                exact ⟨rfl, rfl, by simp, hsv⟩

/-- Witness for C9: with an unreadable `ssl.pem` and present credentials,
the issued chain and key are parsed, saved to `ssl.pem` and returned. -/
theorem init_certs_spec_witness :
    init_certs "/state" "shuttle.example"
      ⟨.error "invalid pem", true, .ok "creds",
        fun _ _ _ => .ok ("CHAIN", "KEY"),
        fun buf => .ok buf, fun _ _ => .ok ()⟩ =
      .ok ("CHAINKEY",
        [.issued ("*." ++ "shuttle.example") Challenge.dns01,
         .savedPem ("/state" ++ "/ssl.pem") "CHAINKEY"]) :=
  (init_certs_spec "/state" "shuttle.example"
      ⟨.error "invalid pem", true, .ok "creds",
        fun _ _ _ => .ok ("CHAIN", "KEY"),
        fun buf => .ok buf, fun _ _ => .ok ()⟩).2.2.1
    "invalid pem" "creds" "CHAIN" "KEY" "CHAINKEY" rfl rfl rfl rfl
    (by decide) rfl

/-- Provided the supervised loop terminates whenever it is spawned, handling
one `Built` dispatches exactly one cleanup. -/
lemma processBuilt_length_one (id : Uuid) (env : BuiltEnv)
    (hterm : handleResult env.handleEnv = .ok () →
      (runLoop id env.abortedResult env.runEvents).isSome = true) :
    (processBuilt id env).length = 1 := by
  unfold processBuilt
  cases hp : env.portResult with
  | none => simp
  | some port =>
    cases hn : env.nameResult with
    | error e => simp
    | ok u =>
      cases u
      cases hf : env.factoryResult with
      | error e => simp
      | ok v =>
        cases v
        cases hres : handleResult env.handleEnv with
        | error e => simp [handleRun, hres]
        | ok w =>
          cases w
          have hs := hterm hres
          rcases Option.isSome_iff_exists.mp hs with ⟨r, hr⟩
          simp [handleRun, hres, runTask, hr]

/-- A failure anywhere in the per-item pipeline dispatches exactly the
start-crashed cleanup. -/
lemma processBuilt_pipeline_failure (id : Uuid) (env : BuiltEnv)
    (h : pipelineFailed env) :
    ∃ e, processBuilt id env = [.startCrashed e] := by
  unfold processBuilt
  cases hp : env.portResult with
  | none => exact ⟨_, rfl⟩
  | some port =>
    cases hn : env.nameResult with
    | error e => exact ⟨.other e, rfl⟩
    | ok u =>
      cases u
      cases hf : env.factoryResult with
      | error e => exact ⟨.other e, rfl⟩
      | ok v =>
        cases v
        cases hres : handleResult env.handleEnv with
        | error e => exact ⟨.deployer e, by simp [handleRun, hres]⟩
        | ok w =>
          cases w
          rcases h with hcon | ⟨e, hcon⟩ | ⟨e, hcon⟩ | ⟨e, hcon⟩
          · rw [hp] at hcon; simp at hcon
          · rw [hn] at hcon; simp at hcon
          · rw [hf] at hcon; simp at hcon
          · rw [hres] at hcon; simp at hcon

/-- Exactly one cleanup per `Built` makes the total dispatch count of the runner
equal the number of `Built` records consumed. -/
lemma task_length (builts : List (Uuid × BuiltEnv))
    (h : ∀ p ∈ builts, (processBuilt p.1 p.2).length = 1) :
    (Shuttle.task builts).length = builts.length := by
  induction builts with
  | nil => rfl
  | cons a t ih =>
    have ha := h a (by simp)
    have ht := ih fun x hx => h x (by simp [hx])
    simp only [Shuttle.task, List.map_cons, List.flatten_cons,
      List.length_append, List.length_cons] at *
    rw [ha, ht]
    omega

/-- C1: for every `Built` received by the runner loop, exactly one cleanup
is dispatched (assuming the supervised loop, once spawned, terminates);
every pipeline failure (no free port, name parse failure, factory failure,
or an error returned by `Built::handle`) dispatches the start-crashed
cleanup and the loop continues, consuming every `Built`: the number of
cleanups equals the number of `Built` records and none is dropped. -/
theorem task_exactly_one_cleanup (builts : List (Uuid × BuiltEnv))
    (hterm : ∀ p ∈ builts, handleResult p.2.handleEnv = .ok () →
      (runLoop p.1 p.2.abortedResult p.2.runEvents).isSome = true) :
    (Shuttle.task builts).length = builts.length ∧
    ∀ p ∈ builts, (processBuilt p.1 p.2).length = 1 ∧
      (pipelineFailed p.2 → ∃ e, processBuilt p.1 p.2 = [.startCrashed e]) := by
  have hone : ∀ p ∈ builts, (processBuilt p.1 p.2).length = 1 :=
    fun p hp => processBuilt_length_one p.1 p.2 (hterm p hp)
  exact ⟨task_length builts hone, fun p hp =>
    ⟨hone p hp, processBuilt_pipeline_failure p.1 p.2⟩⟩

/-- Witness for C1: two `Built` records, one failing for lack of a free
port and one running to natural completion, dispatch two cleanups, the
first of them start-crashed. -/
theorem task_exactly_one_cleanup_witness :
    (Shuttle.task
      [(0, ⟨none, .ok (), .ok (), ⟨.ok (), .ok (), .ok (), .ok ()⟩,
        .error ⟨true⟩, [.handleDone (.ok (.ok ()))], .ok ()⟩),
       (1, ⟨some 8001, .ok (), .ok (), ⟨.ok (), .ok (), .ok (), .ok ()⟩,
        .error ⟨true⟩, [.handleDone (.ok (.ok ()))], .ok ()⟩)]).length = 2 :=
  (task_exactly_one_cleanup
    [(0, ⟨none, .ok (), .ok (), ⟨.ok (), .ok (), .ok (), .ok ()⟩,
      .error ⟨true⟩, [.handleDone (.ok (.ok ()))], .ok ()⟩),
     (1, ⟨some 8001, .ok (), .ok (), ⟨.ok (), .ok (), .ok (), .ok ()⟩,
      .error ⟨true⟩, [.handleDone (.ok (.ok ()))], .ok ()⟩)]
    (by decide)).1

end Shuttle
